import Mathlib

/-!
Verification development for the KubeGuardian remediation controller.

The definitions below are a shallow embedding of the Go sources:
  - pkg/circuitbreaker/circuitbreaker.go (circuit breaker state machine)
  - pkg/ratelimit/ratelimit.go           (token-bucket rate limiter)
  - the remediation engine (Engine.ExecuteAction and its action helpers)
  - pkg/detection/rules.go               (detection rules)

Conventions:
  - Go `time.Time` / `time.Duration` are modelled as `Int` nanoseconds, with
    `0` standing for Go's zero time (`time.Time.IsZero`).  The rate limiter
    uses `Nat` nanoseconds since all its times are after bucket creation.
  - Go machine integers (`int`, `int32`, `uint32`, `uint64`) are modelled as
    `Int` / `Nat`; no operation in the modelled paths approaches overflow.
  - The Kubernetes client is modelled as a pure cluster value; write calls
    (pod deletes, deployment patches) are recorded in an explicit list of
    `WriteOp`s instead of being sent to a server, and `Get`/list calls read
    from the cluster value.
-/

namespace KubeGuardian

/-! ## Circuit breaker (pkg/circuitbreaker/circuitbreaker.go) -/

/-- Go `State` (`StateClosed | StateOpen | StateHalfOpen`). -/
inductive CBState where
  | closed
  | opened
  | halfOpen
deriving DecidableEq, Repr

/-- Go `Counts`. -/
structure Counts where
  requests : Nat
  totalSuccesses : Nat
  totalFailures : Nat
  consecutiveSuccesses : Nat
  consecutiveFailures : Nat
deriving DecidableEq, Repr

def Counts.zero : Counts := ⟨0, 0, 0, 0, 0⟩

/-- The mutable fields of Go `CircuitBreaker` together with its configuration.
`expiry = 0` encodes Go's zero `time.Time`. -/
structure CircuitBreaker where
  maxRequests : Nat
  interval : Int
  timeout : Int
  state : CBState
  generation : Nat
  counts : Counts
  expiry : Int
deriving DecidableEq, Repr

/-- Go `DefaultReadyToTrip`: `counts.ConsecutiveFailures > 5`. -/
def DefaultReadyToTrip (c : Counts) : Bool := 5 < c.consecutiveFailures

/-- Go breaker errors returned by `beforeRequest`. -/
inductive CBError where
  | errOpen
  | errTooManyRequests
deriving DecidableEq, Repr

/-- Go `toNewGeneration`: bump the generation, zero the counts, and reset the
expiry according to the (already updated) state. -/
def toNewGeneration (now : Int) (cb : CircuitBreaker) : CircuitBreaker :=
  let expiry : Int :=
    match cb.state with
    | .closed => if cb.interval = 0 then 0 else now + cb.interval
    | .opened => now + cb.timeout
    | .halfOpen => 0
  { cb with generation := cb.generation + 1, counts := Counts.zero, expiry := expiry }

/-- Go `setState`: no-op when the state is unchanged, otherwise switch state
and start a new generation. -/
def setState (s : CBState) (now : Int) (cb : CircuitBreaker) : CircuitBreaker :=
  if cb.state = s then cb else toNewGeneration now { cb with state := s }

/-- Go `currentState`: apply the time-driven transitions (Closed-cycle reset,
Open → HalfOpen on expiry) and return the updated breaker; the state and
generation the caller reads are those of the returned breaker. -/
def currentState (now : Int) (cb : CircuitBreaker) : CircuitBreaker :=
  match cb.state with
  | .closed => if cb.expiry ≠ 0 ∧ cb.expiry < now then toNewGeneration now cb else cb
  | .opened => if cb.expiry < now then setState .halfOpen now cb else cb
  | .halfOpen => cb

/-- The counts update performed by Go `onSuccess`. -/
def succCounts (c : Counts) : Counts :=
  { c with totalSuccesses := c.totalSuccesses + 1,
           consecutiveSuccesses := c.consecutiveSuccesses + 1,
           consecutiveFailures := 0 }

/-- The counts update performed by Go `onFailure`. -/
def failCounts (c : Counts) : Counts :=
  { c with totalFailures := c.totalFailures + 1,
           consecutiveFailures := c.consecutiveFailures + 1,
           consecutiveSuccesses := 0 }

/-- Go `onSuccess` (with `state` the value computed by `currentState`). -/
def onSuccess (st : CBState) (now : Int) (cb : CircuitBreaker) : CircuitBreaker :=
  let cb1 := { cb with counts := succCounts cb.counts }
  if st = .halfOpen ∧ cb1.maxRequests ≤ cb1.counts.consecutiveSuccesses then
    setState .closed now cb1
  else cb1

/-- Go `onFailure` (with `state` the value computed by `currentState`);
`readyToTrip` is the injectable tripping policy. -/
def onFailure (readyToTrip : Counts → Bool) (_st : CBState) (now : Int)
    (cb : CircuitBreaker) : CircuitBreaker :=
  let cb1 := { cb with counts := failCounts cb.counts }
  if readyToTrip cb1.counts then setState .opened now cb1 else cb1

/-- Go `beforeRequest`: returns the updated breaker, the captured generation,
and the admission decision (`none` = admitted, request counter incremented). -/
def beforeRequest (now : Int) (cb : CircuitBreaker) :
    CircuitBreaker × Nat × Option CBError :=
  let cb1 := currentState now cb
  if cb1.state = .opened then
    (cb1, cb1.generation, some .errOpen)
  else if cb1.state = .halfOpen ∧ cb1.maxRequests ≤ cb1.counts.requests then
    (cb1, cb1.generation, some .errTooManyRequests)
  else
    ({ cb1 with counts := { cb1.counts with requests := cb1.counts.requests + 1 } },
     cb1.generation, none)

/-- Go `afterRequest`: recompute the state, discard the result on a generation
mismatch, otherwise account the outcome. -/
def afterRequest (readyToTrip : Counts → Bool) (before : Nat) (success : Bool)
    (now : Int) (cb : CircuitBreaker) : CircuitBreaker :=
  let cb1 := currentState now cb
  if cb1.generation ≠ before then cb1
  else if success then onSuccess cb1.state now cb1
  else onFailure readyToTrip cb1.state now cb1

/-- Outcome of one `Execute` call: the breaker afterwards, whether the wrapped
operation was invoked, and the breaker error (if rejected). -/
structure CBExec where
  breaker : CircuitBreaker
  opInvoked : Bool
  err : Option CBError
deriving DecidableEq, Repr

/-- Go `Execute` (no fallback configured, no panic): `beforeRequest` at time
`now1`, the operation's success as judged by `isSuccessful` is `opOk`, then
`afterRequest` at time `now2`. -/
def cbExecute (readyToTrip : Counts → Bool) (now1 now2 : Int) (opOk : Bool)
    (cb : CircuitBreaker) : CBExec :=
  match beforeRequest now1 cb with
  | (cb1, _, some e) => ⟨cb1, false, some e⟩
  | (cb1, g, none) => ⟨afterRequest readyToTrip g opOk now2 cb1, true, none⟩

/-- A concrete breaker sitting in `HalfOpen` (fresh generation: counts zeroed,
expiry cleared), with the engine's pods-breaker configuration. -/
def halfOpenCB : CircuitBreaker :=
  { maxRequests := 5, interval := 60000000000, timeout := 30000000000,
    state := .halfOpen, generation := 3, counts := Counts.zero, expiry := 0 }

/-- A concrete breaker sitting in `Open` with `expiry = 50`. -/
def openCB : CircuitBreaker :=
  { maxRequests := 5, interval := 60000000000, timeout := 30000000000,
    state := .opened, generation := 7, counts := Counts.zero, expiry := 50 }

/-- A concrete breaker sitting in `Closed` with no interval expiry pending. -/
def closedCB : CircuitBreaker :=
  { maxRequests := 5, interval := 0, timeout := 30000000000,
    state := .closed, generation := 5, counts := Counts.zero, expiry := 0 }

/-- C3 counterexample: in the `HalfOpen` state, a single failed call under the
default tripping policy (`consecutiveFailures > 5`) does NOT transition the
breaker to `Open`: `onFailure` only trips when `readyToTrip` holds, and after
one failure `consecutiveFailures = 1`.  The breaker stays `HalfOpen`. -/
theorem halfOpen_single_failure_not_opened :
    (cbExecute DefaultReadyToTrip 100 100 false halfOpenCB).breaker.state =
      CBState.halfOpen ∧
    ¬ (cbExecute DefaultReadyToTrip 100 100 false halfOpenCB).breaker.state =
      CBState.opened := by decide

/-- C3 (amended): a failed call accounted in the `HalfOpen` state transitions
the breaker to `Open` with `expiry = now + timeout` exactly when the injectable
`readyToTrip` policy accepts the updated counts; otherwise only the failure
counters change and the breaker stays `HalfOpen`.  Under the default policy a
single failure therefore leaves the breaker `HalfOpen`. -/
theorem halfOpen_failure_trips_iff_ready (readyToTrip : Counts → Bool)
    (before : Nat) (now : Int) (cb : CircuitBreaker)
    (hst : cb.state = CBState.halfOpen) (hgen : cb.generation = before) :
    (readyToTrip (failCounts cb.counts) = true →
       (afterRequest readyToTrip before false now cb).state = CBState.opened ∧
       (afterRequest readyToTrip before false now cb).expiry = now + cb.timeout) ∧
    (readyToTrip (failCounts cb.counts) = false →
       afterRequest readyToTrip before false now cb =
         { cb with counts := failCounts cb.counts }) := by
  constructor <;> intro h <;>
    simp [afterRequest, currentState, hst, hgen, onFailure, h, setState,
      toNewGeneration]

theorem halfOpen_failure_trips_iff_ready_witness :
    halfOpenCB.state = CBState.halfOpen ∧ halfOpenCB.generation = 3 ∧
    DefaultReadyToTrip (failCounts halfOpenCB.counts) = false ∧
    afterRequest DefaultReadyToTrip 3 false 100 halfOpenCB =
      { halfOpenCB with counts := failCounts halfOpenCB.counts } :=
  ⟨by decide, by decide, by decide,
   (halfOpen_failure_trips_iff_ready DefaultReadyToTrip 3 100 halfOpenCB
     (by decide) (by decide)).2 (by decide)⟩

/-- C7 counterexample: at the instant `now = expiry` an `Open` breaker still
rejects with `ErrOpen` and stays `Open` (the code transitions only when
`expiry < now`, i.e. strictly after expiry), contradicting the claim that the
transition to `HalfOpen` happens once `now ≥ expiry`. -/
theorem open_at_exact_expiry_still_rejected :
    (cbExecute DefaultReadyToTrip 50 50 true openCB).err = some CBError.errOpen ∧
    (cbExecute DefaultReadyToTrip 50 50 true openCB).breaker.state = CBState.opened ∧
    (cbExecute DefaultReadyToTrip 50 50 true openCB).opInvoked = false := by decide

/-- C7 (amended): while `Open` and `now ≤ expiry` every `Execute` call returns
`ErrOpen` and the wrapped operation is never invoked; once `now > expiry` the
breaker transitions to `HalfOpen` and the call is admitted; in `HalfOpen`
a call finding `requests ≥ maxRequests` is rejected with `ErrTooManyRequests`
without invoking the operation, while `requests < maxRequests` admits it. -/
theorem breaker_open_halfOpen_protocol (readyToTrip : Counts → Bool)
    (now1 now2 : Int) (opOk : Bool) (cb : CircuitBreaker) :
    (cb.state = CBState.opened → now1 ≤ cb.expiry →
       cbExecute readyToTrip now1 now2 opOk cb = ⟨cb, false, some CBError.errOpen⟩) ∧
    (cb.state = CBState.opened → cb.expiry < now1 → 0 < cb.maxRequests →
       (beforeRequest now1 cb).1.state = CBState.halfOpen ∧
       (beforeRequest now1 cb).2.2 = none ∧
       (cbExecute readyToTrip now1 now2 opOk cb).opInvoked = true) ∧
    (cb.state = CBState.halfOpen → cb.maxRequests ≤ cb.counts.requests →
       cbExecute readyToTrip now1 now2 opOk cb =
         ⟨cb, false, some CBError.errTooManyRequests⟩) ∧
    (cb.state = CBState.halfOpen → cb.counts.requests < cb.maxRequests →
       (beforeRequest now1 cb).2.2 = none ∧
       (cbExecute readyToTrip now1 now2 opOk cb).opInvoked = true) := by
  refine ⟨fun hst h => ?_, fun hst h hmax => ?_, fun hst h => ?_, fun hst h => ?_⟩
  · simp [cbExecute, beforeRequest, currentState, hst, not_lt.mpr h]
  · simp [cbExecute, beforeRequest, currentState, hst, h, setState,
      toNewGeneration, Counts.zero, Nat.pos_iff_ne_zero.mp hmax,
      Nat.not_succ_le_zero, hmax]
  · simp [cbExecute, beforeRequest, currentState, hst, h]
  · simp [cbExecute, beforeRequest, currentState, hst, Nat.not_le.mpr h]

theorem breaker_open_halfOpen_protocol_witness :
    openCB.state = CBState.opened ∧ openCB.expiry < 51 ∧ 0 < openCB.maxRequests ∧
    ((beforeRequest 51 openCB).1.state = CBState.halfOpen ∧
     (beforeRequest 51 openCB).2.2 = none ∧
     (cbExecute DefaultReadyToTrip 51 51 true openCB).opInvoked = true) :=
  ⟨by decide, by decide, by decide,
   (breaker_open_halfOpen_protocol DefaultReadyToTrip 51 51 true openCB).2.1
     (by decide) (by decide) (by decide)⟩

/-- C9: when the post-call accounting `afterRequest` runs on a breaker whose
current generation differs from the one captured at `beforeRequest`, the
outcome is discarded: the breaker's state and all counters are left completely
unchanged, for success and failure alike.  (The hypothesis
`currentState now cb = cb` states that no time-driven expiry transition fires
at this instant — such a transition would be the breaker moving on, not the
discarded accounting.) -/
theorem afterRequest_generation_mismatch_noop (readyToTrip : Counts → Bool)
    (before : Nat) (now : Int) (cb : CircuitBreaker)
    (hstable : currentState now cb = cb) (hgen : cb.generation ≠ before) :
    afterRequest readyToTrip before true now cb = cb ∧
    afterRequest readyToTrip before false now cb = cb := by
  constructor <;> simp [afterRequest, hstable, hgen]

theorem afterRequest_generation_mismatch_noop_witness :
    currentState 100 closedCB = closedCB ∧ closedCB.generation ≠ 4 ∧
    (afterRequest DefaultReadyToTrip 4 true 100 closedCB = closedCB ∧
     afterRequest DefaultReadyToTrip 4 false 100 closedCB = closedCB) :=
  ⟨by decide, by decide,
   afterRequest_generation_mismatch_noop DefaultReadyToTrip 4 100 closedCB
     (by decide) (by decide)⟩

/-! ## Token-bucket rate limiter (pkg/ratelimit/ratelimit.go)

Times are `Nat` nanoseconds.  Go computes
`tokensToAdd := int(elapsed.Seconds() * float64(rl.refillRate))`; we model the
exact value `⌊elapsed_ns * refillRate / 10^9⌋`, which is the specification's
`⌊(now − lastRefillAt) × refillRate⌋` in nanoseconds. -/

def nsPerSec : Nat := 1000000000

/-- The mutable fields of Go `RateLimiter` (capacity and refill rate are passed
as parameters to the functions below). -/
structure Bucket where
  tokens : Nat
  lastRefill : Nat
deriving DecidableEq, Repr

/-- Go `NewRateLimiter`: a fresh bucket holds `capacity` tokens and
`lastRefill = now`. -/
def newBucket (capacity t0 : Nat) : Bucket := ⟨capacity, t0⟩

/-- Go `refill`: add `tokensToAdd = ⌊elapsed × refillRate⌋` tokens, clamp to
`capacity`, and advance `lastRefill` — all only when at least one token is
added. -/
def refill (capacity refillRate now : Nat) (b : Bucket) : Bucket :=
  if 0 < (now - b.lastRefill) * refillRate / nsPerSec then
    { tokens := min (b.tokens + (now - b.lastRefill) * refillRate / nsPerSec) capacity,
      lastRefill := now }
  else b

/-- Go `Allow`: refill, then admit (decrementing one token) iff a token is
available. -/
def bucketAllow (capacity refillRate now : Nat) (b : Bucket) : Bucket × Bool :=
  if 0 < (refill capacity refillRate now b).tokens then
    ({ refill capacity refillRate now b with
       tokens := (refill capacity refillRate now b).tokens - 1 }, true)
  else (refill capacity refillRate now b, false)

/-- Runs a sequence of `Allow` calls at the given times; returns the final
bucket and the number of admitted calls. -/
def runBucket (capacity refillRate : Nat) : List Nat → Bucket → Bucket × Nat
  | [], b => (b, 0)
  | t :: ts, b =>
    let p := bucketAllow capacity refillRate t b
    let q := runBucket capacity refillRate ts p.1
    (q.1, (if p.2 then 1 else 0) + q.2)

theorem div_add_div_le (a b d : Nat) (hd : 0 < d) : a / d + b / d ≤ (a + b) / d := by
  rw [Nat.le_div_iff_mul_le hd]
  calc (a / d + b / d) * d = a / d * d + b / d * d := by ring
    _ ≤ a + b := Nat.add_le_add (Nat.div_mul_le_self a d) (Nat.div_mul_le_self b d)

theorem refill_div_le (t0 lr t r : Nat) (h0 : t0 ≤ lr) (hle : lr ≤ t) :
    (lr - t0) * r / nsPerSec + (t - lr) * r / nsPerSec ≤ (t - t0) * r / nsPerSec := by
  have hsum : (lr - t0) + (t - lr) = t - t0 := by omega
  calc (lr - t0) * r / nsPerSec + (t - lr) * r / nsPerSec
      ≤ ((lr - t0) * r + (t - lr) * r) / nsPerSec :=
        div_add_div_le _ _ _ (by norm_num [nsPerSec])
    _ = (t - t0) * r / nsPerSec := by rw [← Nat.add_mul, hsum]

theorem refill_cases (capacity refillRate now : Nat) (b : Bucket) :
    refill capacity refillRate now b = b ∨
    (refill capacity refillRate now b =
      { tokens := min (b.tokens + (now - b.lastRefill) * refillRate / nsPerSec) capacity,
        lastRefill := now } ∧
      0 < (now - b.lastRefill) * refillRate / nsPerSec) := by
  unfold refill
  split
  · exact Or.inr ⟨rfl, by assumption⟩
  · exact Or.inl rfl

theorem bucketAllow_cases (capacity refillRate now : Nat) (b : Bucket) :
    (0 < (refill capacity refillRate now b).tokens ∧
     bucketAllow capacity refillRate now b =
       ({ refill capacity refillRate now b with
          tokens := (refill capacity refillRate now b).tokens - 1 }, true)) ∨
    ((refill capacity refillRate now b).tokens = 0 ∧
     bucketAllow capacity refillRate now b = (refill capacity refillRate now b, false)) := by
  unfold bucketAllow
  split
  · exact Or.inl ⟨by assumption, rfl⟩
  · exact Or.inr ⟨by omega, rfl⟩

/-- Refilling cannot create tokens beyond the accumulated refill budget, and
moves `lastRefill` either nowhere or to the call time. -/
theorem refill_summary (capacity refillRate t0 t : Nat) (b : Bucket)
    (h0 : t0 ≤ b.lastRefill) (hle : b.lastRefill ≤ t) :
    (refill capacity refillRate t b).tokens +
      (b.lastRefill - t0) * refillRate / nsPerSec ≤
      b.tokens + ((refill capacity refillRate t b).lastRefill - t0) *
        refillRate / nsPerSec ∧
    ((refill capacity refillRate t b).lastRefill = b.lastRefill ∨
     (refill capacity refillRate t b).lastRefill = t) := by
  rcases refill_cases capacity refillRate t b with hr | ⟨hr, _⟩
  · rw [hr]
    exact ⟨le_refl _, Or.inl rfl⟩
  · rw [hr]
    refine ⟨?_, Or.inr rfl⟩
    have hdiv := refill_div_le t0 b.lastRefill t refillRate h0 hle
    have hmin : min (b.tokens + (t - b.lastRefill) * refillRate / nsPerSec) capacity ≤
        b.tokens + (t - b.lastRefill) * refillRate / nsPerSec := Nat.min_le_left _ _
    show min (b.tokens + (t - b.lastRefill) * refillRate / nsPerSec) capacity +
        (b.lastRefill - t0) * refillRate / nsPerSec ≤
        b.tokens + (t - t0) * refillRate / nsPerSec
    omega

/-- One `Allow` call neither creates tokens beyond the refill budget nor moves
`lastRefill` anywhere but to the call time. -/
theorem bucketAllow_step (capacity refillRate t0 t : Nat) (b : Bucket)
    (h0 : t0 ≤ b.lastRefill) (hle : b.lastRefill ≤ t) :
    (if (bucketAllow capacity refillRate t b).2 then 1 else 0) +
      (bucketAllow capacity refillRate t b).1.tokens +
      (b.lastRefill - t0) * refillRate / nsPerSec ≤
      b.tokens + ((bucketAllow capacity refillRate t b).1.lastRefill - t0) *
        refillRate / nsPerSec ∧
    ((bucketAllow capacity refillRate t b).1.lastRefill = b.lastRefill ∨
      (bucketAllow capacity refillRate t b).1.lastRefill = t) := by
  have hsum := refill_summary capacity refillRate t0 t b h0 hle
  rcases bucketAllow_cases capacity refillRate t b with ⟨hp, heq⟩ | ⟨hp, heq⟩
  · rw [heq]
    refine ⟨?_, hsum.2⟩
    show 1 + ((refill capacity refillRate t b).tokens - 1) +
        (b.lastRefill - t0) * refillRate / nsPerSec ≤
        b.tokens + ((refill capacity refillRate t b).lastRefill - t0) *
          refillRate / nsPerSec
    have h1 := hsum.1
    omega
  · rw [heq]
    refine ⟨?_, hsum.2⟩
    show 0 + (refill capacity refillRate t b).tokens +
        (b.lastRefill - t0) * refillRate / nsPerSec ≤
        b.tokens + ((refill capacity refillRate t b).lastRefill - t0) *
          refillRate / nsPerSec
    have h1 := hsum.1
    omega

/-- The trace invariant for a token bucket: admitted calls plus remaining
tokens are bounded by the initial tokens plus the refill budget accumulated up
to the final `lastRefill`. -/
theorem runBucket_invariant (capacity refillRate t0 : Nat) :
    ∀ (ts : List Nat) (b : Bucket),
      t0 ≤ b.lastRefill →
      (∀ t ∈ ts, b.lastRefill ≤ t) →
      List.Pairwise (· ≤ ·) ts →
      (runBucket capacity refillRate ts b).2 +
        (runBucket capacity refillRate ts b).1.tokens +
        (b.lastRefill - t0) * refillRate / nsPerSec ≤
        b.tokens + ((runBucket capacity refillRate ts b).1.lastRefill - t0) *
          refillRate / nsPerSec ∧
      ((runBucket capacity refillRate ts b).1.lastRefill = b.lastRefill ∨
        (runBucket capacity refillRate ts b).1.lastRefill ∈ ts)
  | [], b, _, _, _ => by simp [runBucket]
  | t :: ts, b, h0, hmem, hsort => by
    have hlet : b.lastRefill ≤ t := hmem t (List.mem_cons_self t ts)
    have hstep := bucketAllow_step capacity refillRate t0 t b h0 hlet
    have hlr : (bucketAllow capacity refillRate t b).1.lastRefill = b.lastRefill ∨
        (bucketAllow capacity refillRate t b).1.lastRefill = t := hstep.2
    have h0' : t0 ≤ (bucketAllow capacity refillRate t b).1.lastRefill := by
      rcases hlr with h | h <;> omega
    have hmem' : ∀ t' ∈ ts, (bucketAllow capacity refillRate t b).1.lastRefill ≤ t' := by
      intro t' ht'
      have hle' : t ≤ t' := (List.pairwise_cons.mp hsort).1 t' ht'
      rcases hlr with h | h <;> omega
    have ih := runBucket_invariant capacity refillRate t0 ts
      (bucketAllow capacity refillRate t b).1 h0' hmem'
      (List.pairwise_cons.mp hsort).2
    simp only [runBucket]
    refine ⟨?_, ?_⟩
    · have h1 := hstep.1
      have h2 := ih.1
      omega
    · rcases ih.2 with h | h
      · rcases hlr with h' | h'
        · exact Or.inl (h.trans h')
        · exact Or.inr (by rw [h, h']; exact List.mem_cons_self t ts)
      · exact Or.inr (List.mem_cons_of_mem t h)

/-- C8: over any window of length `W` from bucket creation, the number of
admitted `Allow` calls is at most `capacity + ⌊W × refillRate⌋`; moreover each
admitted call consumes exactly one token from the refilled bucket, and a
refill never pushes the token count above `max tokens capacity` (it clamps to
`capacity`). -/
theorem tokenBucket_window_bound (capacity refillRate t0 W : Nat) (ts : List Nat)
    (hsort : List.Pairwise (· ≤ ·) ts)
    (hlo : ∀ t ∈ ts, t0 ≤ t) (hhi : ∀ t ∈ ts, t ≤ t0 + W) :
    (runBucket capacity refillRate ts (newBucket capacity t0)).2 ≤
      capacity + W * refillRate / nsPerSec ∧
    (∀ (now : Nat) (b : Bucket), (bucketAllow capacity refillRate now b).2 = true →
      (bucketAllow capacity refillRate now b).1.tokens + 1 =
        (refill capacity refillRate now b).tokens) ∧
    (∀ (now : Nat) (b : Bucket),
      (refill capacity refillRate now b).tokens ≤ max b.tokens capacity) := by
  refine ⟨?_, ?_, ?_⟩
  · have htok : (newBucket capacity t0).tokens = capacity := rfl
    have hlast : (newBucket capacity t0).lastRefill = t0 := rfl
    have hinv := runBucket_invariant capacity refillRate t0 ts (newBucket capacity t0)
      (by rw [hlast]) (by rw [hlast]; exact fun t ht => hlo t ht) hsort
    have hfin : ((runBucket capacity refillRate ts (newBucket capacity t0)).1.lastRefill
        - t0) * refillRate / nsPerSec ≤ W * refillRate / nsPerSec := by
      rcases hinv.2 with h | h
      · rw [h, hlast, Nat.sub_self, Nat.zero_mul, Nat.zero_div]
        exact Nat.zero_le _
      · have : (runBucket capacity refillRate ts (newBucket capacity t0)).1.lastRefill
            ≤ t0 + W := hhi _ h
        exact Nat.div_le_div_right (Nat.mul_le_mul_right _ (by omega))
    have h1 := hinv.1
    rw [htok, hlast, Nat.sub_self, Nat.zero_mul, Nat.zero_div] at h1
    omega
  · intro now b h
    by_cases hp : 0 < (refill capacity refillRate now b).tokens
    · simp only [bucketAllow, if_pos hp]
      omega
    · simp [bucketAllow, if_neg hp] at h
  · intro now b
    simp only [refill]
    split
    · exact le_trans (Nat.min_le_right _ _) (le_max_right _ _)
    · exact le_max_left _ _

theorem tokenBucket_window_bound_witness :
    List.Pairwise (· ≤ ·) [0, 1500000000] ∧
    (∀ t ∈ [0, 1500000000], 0 ≤ t) ∧
    (∀ t ∈ [0, 1500000000], t ≤ 0 + 2000000000) ∧
    (runBucket 1 1 [0, 1500000000] (newBucket 1 0)).2 ≤
      1 + 2000000000 * 1 / nsPerSec :=
  ⟨by decide, by decide, by decide,
   (tokenBucket_window_bound 1 1 0 2000000000 [0, 1500000000]
     (by decide) (by decide) (by decide)).1⟩

/-! ## Cluster objects and the abstract cluster store

The Kubernetes objects are reduced to the fields the remediation and
detection code reads.  Write calls are recorded as `WriteOp`s. -/

/-- A write operation issued against the cluster store. -/
inductive WriteOp where
  | deletePod (ns name : String)
  | patchReplicas (ns name : String) (replicas : Int)
  | patchRevision (ns name : String) (revision : Int)
deriving DecidableEq, Repr

structure OwnerReference where
  kind : String
  name : String
deriving DecidableEq, Repr

/-- Go `corev1.ContainerStateTerminated` (the fields the rules read). -/
structure ContainerStateTerminated where
  reason : String
  finishedAt : Int
deriving DecidableEq, Repr

structure Pod where
  name : String
  ns : String
  ownerReferences : List OwnerReference
deriving DecidableEq, Repr

/-- One entry of `Deployment.Status.Conditions`. -/
structure DeploymentCondition where
  condType : String
  status : String
  reason : String
  lastUpdateTime : Int
deriving DecidableEq, Repr

structure Deployment where
  name : String
  ns : String
  annotations : List (String × String)
  replicas : Option Int
  conditions : List DeploymentCondition
deriving DecidableEq, Repr

structure ReplicaSet where
  name : String
  ns : String
  ownerReferences : List OwnerReference
  replicas : Option Int
deriving DecidableEq, Repr

/-- The abstract cluster store read by the engines. -/
structure Cluster where
  pods : List Pod
  deployments : List Deployment
  replicaSets : List ReplicaSet
deriving DecidableEq, Repr

/-- Go `client.AppsV1().Deployments(ns).Get(ctx, name, ...)`: `none` models a
get error. -/
def getDeployment (c : Cluster) (ns name : String) : Option Deployment :=
  c.deployments.find? (fun d => d.ns == ns && d.name == name)

/-- Go `client.AppsV1().ReplicaSets(ns).Get(ctx, name, ...)`. -/
def getReplicaSet (c : Cluster) (ns name : String) : Option ReplicaSet :=
  c.replicaSets.find? (fun r => r.ns == ns && r.name == name)

/-- Whether the pod exists (a delete of a missing pod errors in the store). -/
def podExists (c : Cluster) (ns name : String) : Bool :=
  c.pods.any (fun p => p.ns == ns && p.name == name)

/-! ## Remediation engine (Engine.ExecuteAction and its helpers)

This embeds the engine variant that constructs the circuit breakers and the
rate limiter in `NewEngine` (the richer of the two source copies).  Note that
`ExecuteAction` itself reads neither the rate limiter nor the breakers, so the
embedding of `ExecuteAction` takes no such state: the source consults neither
on any path. -/

/-- Go `NamespaceRemediationConfig`. -/
structure NamespaceRemediationConfig where
  enabled : Bool
  autoRollbackEnabled : Bool
  autoScaleEnabled : Bool
  maxRetries : Int
  retryInterval : Int
  cooldownSeconds : Int
deriving DecidableEq, Repr

/-- Go `RemediationConfig`. -/
structure RemediationConfig where
  enabled : Bool
  maxRetries : Int
  retryInterval : Int
  dryRun : Bool
  autoRollbackEnabled : Bool
  autoScaleEnabled : Bool
  cooldownSeconds : Int
  namespaces : List (String × NamespaceRemediationConfig)
deriving DecidableEq, Repr

/-- Go `Engine.GetNamespaceConfig`: the namespace entry verbatim, else the
defaults synthesized from the global configuration. -/
def getNamespaceConfig (cfg : RemediationConfig) (ns : String) :
    NamespaceRemediationConfig :=
  match cfg.namespaces.lookup ns with
  | some c => c
  | none =>
    ⟨cfg.enabled, cfg.autoRollbackEnabled, cfg.autoScaleEnabled,
     cfg.maxRetries, cfg.retryInterval, cfg.cooldownSeconds⟩

/-- The dynamically-typed `resource interface{}` argument of `ExecuteAction`:
a nil interface, a Pod, a Deployment, or some other object. -/
inductive Resource where
  | nilResource
  | pod (p : Pod)
  | deployment (d : Deployment)
  | other
deriving DecidableEq, Repr

/-- Go `Result` (the wall-clock fields `ExecutedAt`/`Duration` are omitted:
no claim depends on them). -/
structure Result where
  action : String
  success : Bool
  message : String
  resource : String
  ns : String
deriving DecidableEq, Repr

/-- The value returned by one action helper: the `Result`, the Go error (as a
message), and the write operations issued to the cluster store. -/
structure ActionOutcome where
  result : Result
  error : Option String
  writes : List WriteOp
deriving DecidableEq, Repr

/-- Go `Engine.getResourceName`. -/
def getResourceName : Resource → String
  | .nilResource => "unknown"
  | .pod p => p.name
  | .deployment d => d.name
  | .other => "unknown"

/-- The cooldown table `Engine.cooldowns`, keyed by
`"<namespace>:<resource>:<action>"`; `lookup` returns the most recent entry
(a map overwrite is modelled by prepending). -/
abbrev Cooldowns := List (String × Int)

def cooldownKey (ns resourceName action : String) : String :=
  ns ++ ":" ++ resourceName ++ ":" ++ action

/-- Go `Engine.isInCooldown`: `cooldownSeconds ≤ 0` disables the check; an
entry blocks while `now − lastAction < cooldownSeconds` (in nanoseconds). -/
def isInCooldown (cooldowns : Cooldowns) (key : String) (cooldownSeconds : Int)
    (now : Int) : Bool :=
  if cooldownSeconds ≤ 0 then false
  else
    match List.lookup key cooldowns with
    | none => false
    | some lastAction => decide (now - lastAction < cooldownSeconds * 1000000000)

/-- Go `Engine.recordCooldown` (map overwrite modelled by shadowing). -/
def recordCooldown (key : String) (now : Int) (m : Cooldowns) : Cooldowns :=
  (key, now) :: m

/-- Go `Engine.restartPod`: type checks, dry-run short circuit, then a pod
delete with foreground propagation (a delete of a missing pod errors). -/
def restartPod (cfg : RemediationConfig) (c : Cluster) (resource : Resource) :
    ActionOutcome :=
  match resource with
  | .nilResource =>
    ⟨⟨"restart-pod", false, "Resource is nil", "", ""⟩, some "resource is nil", []⟩
  | .pod p =>
    if cfg.dryRun then
      ⟨⟨"restart-pod", true, "Dry run: would restart pod " ++ p.name, p.name, p.ns⟩,
       none, []⟩
    else if podExists c p.ns p.name then
      ⟨⟨"restart-pod", true, "Successfully restarted pod " ++ p.name, p.name, p.ns⟩,
       none, [.deletePod p.ns p.name]⟩
    else
      ⟨⟨"restart-pod", false, "Failed to restart pod: not found", p.name, p.ns⟩,
       some "pod not found", []⟩
  | _ =>
    ⟨⟨"restart-pod", false, "Resource is not a valid Pod", "", ""⟩,
     some "resource is not a valid Pod", []⟩

/-- Go reads the `deployment.kubernetes.io/revision` annotation; a missing key
yields `""` in Go, and `""` is then replaced by `"1"`. -/
def revisionOf (d : Deployment) : String :=
  if (List.lookup "deployment.kubernetes.io/revision" d.annotations).getD "" = "" then "1"
  else (List.lookup "deployment.kubernetes.io/revision" d.annotations).getD ""

/-- Go `Engine.rollbackDeployment`: gates (type, namespace auto-rollback,
dry-run), then get the deployment, read its revision annotation, refuse at
revision "1", otherwise patch the revision annotation back to 1. -/
def rollbackDeployment (cfg : RemediationConfig) (c : Cluster)
    (resource : Resource) (ns : String) : ActionOutcome :=
  let nsConfig := getNamespaceConfig cfg ns
  match resource with
  | .nilResource =>
    ⟨⟨"rollback-deployment", false, "Resource is nil", "", ""⟩,
     some "resource is nil", []⟩
  | .deployment d =>
    if ¬ nsConfig.autoRollbackEnabled then
      ⟨⟨"rollback-deployment", false, "Auto rollback is disabled for this namespace",
        d.name, d.ns⟩, none, []⟩
    else if cfg.dryRun then
      ⟨⟨"rollback-deployment", true, "Dry run: would rollback deployment " ++ d.name,
        d.name, d.ns⟩, none, []⟩
    else
      match getDeployment c d.ns d.name with
      | none =>
        ⟨⟨"rollback-deployment", false, "Failed to get deployment", d.name, d.ns⟩,
         some "get failed", []⟩
      | some cur =>
        if revisionOf cur = "1" then
          ⟨⟨"rollback-deployment", false, "No previous revision found for rollback",
            d.name, d.ns⟩, some "no previous revision found", []⟩
        else
          ⟨⟨"rollback-deployment", true,
            "Successfully rolled back deployment " ++ d.name ++ " to revision 1",
            d.name, d.ns⟩, none, [.patchRevision d.ns d.name 1]⟩
  | _ =>
    ⟨⟨"rollback-deployment", false, "Resource is not a valid Deployment", "", ""⟩,
     some "resource is not a valid Deployment", []⟩

/-- Go `Engine.scaleDeployment` (the copy with the maximum-replica guard):
get the current deployment, default missing `spec.replicas` to 1, refuse at
`currentReplicas ≥ 10`, compute `increase = max(2, currentReplicas / 2)` and
`newReplicas = min(currentReplicas + increase, 10)`, then dry-run check and
patch. -/
def scaleDeployment (cfg : RemediationConfig) (c : Cluster) (d : Deployment) :
    ActionOutcome :=
  match getDeployment c d.ns d.name with
  | none =>
    ⟨⟨"scale-replicas", false, "Failed to get deployment", d.name, d.ns⟩,
     some "get failed", []⟩
  | some cur =>
    let currentReplicas := cur.replicas.getD 1
    if 10 ≤ currentReplicas then
      ⟨⟨"scale-replicas", false, "Deployment already at maximum replicas (10)",
        d.name, d.ns⟩, some "deployment already at maximum replicas", []⟩
    else
      let increase := if currentReplicas / 2 < 2 then 2 else currentReplicas / 2
      let newReplicas :=
        if 10 < currentReplicas + increase then 10 else currentReplicas + increase
      if cfg.dryRun then
        ⟨⟨"scale-replicas", true, "Dry run: would scale deployment " ++ d.name,
          d.name, d.ns⟩, none, []⟩
      else
        ⟨⟨"scale-replicas", true, "Successfully scaled deployment " ++ d.name,
          d.name, d.ns⟩, none, [.patchReplicas d.ns d.name newReplicas]⟩

/-- Go `Engine.scalePodDeployment`'s owner-reference walk: the outer loop over
the pod's owner references (continuing when a ReplicaSet has no Deployment
owner), with the ReplicaSet and Deployment gets from the store. -/
def scalePodFromOwners (cfg : RemediationConfig) (c : Cluster) (p : Pod) :
    List OwnerReference → ActionOutcome
  | [] =>
    ⟨⟨"scale-replicas", false, "Could not find owning deployment for pod",
      p.name, p.ns⟩, some "could not find owning deployment for pod", []⟩
  | ref :: rest =>
    if ref.kind = "ReplicaSet" then
      match getReplicaSet c p.ns ref.name with
      | none =>
        ⟨⟨"scale-replicas", false, "Failed to get replicaset", p.name, p.ns⟩,
         some "get failed", []⟩
      | some rs =>
        match rs.ownerReferences.find? (fun r => r.kind == "Deployment") with
        | some dref =>
          match getDeployment c p.ns dref.name with
          | none =>
            ⟨⟨"scale-replicas", false, "Failed to get deployment", p.name, p.ns⟩,
             some "get failed", []⟩
          | some dep => scaleDeployment cfg c dep
        | none => scalePodFromOwners cfg c p rest
    else scalePodFromOwners cfg c p rest

/-- Go `Engine.scaleReplicas`: namespace auto-scale gate, then dispatch on the
dynamic resource type. -/
def scaleReplicas (cfg : RemediationConfig) (c : Cluster) (resource : Resource)
    (ns : String) : ActionOutcome :=
  let nsConfig := getNamespaceConfig cfg ns
  if ¬ nsConfig.autoScaleEnabled then
    ⟨⟨"scale-replicas", false, "Auto scaling is disabled for this namespace", "", ""⟩,
     none, []⟩
  else
    match resource with
    | .pod p => scalePodFromOwners cfg c p p.ownerReferences
    | .deployment d => scaleDeployment cfg c d
    | _ =>
      ⟨⟨"scale-replicas", false, "Resource type not supported for scaling", "", ""⟩,
       some "resource type not supported for scaling", []⟩

/-- The value returned by `ExecuteAction` together with the updated cooldown
table. -/
structure ExecOutcome where
  result : Result
  error : Option String
  writes : List WriteOp
  cooldowns : Cooldowns
deriving DecidableEq, Repr

/-- Go `if err == nil && result.Success { e.recordCooldown(cooldownKey) }`. -/
def withCooldown (key : String) (now : Int) (m : Cooldowns) (o : ActionOutcome) :
    ExecOutcome :=
  if o.error = none ∧ o.result.success then
    ⟨o.result, o.error, o.writes, recordCooldown key now m⟩
  else ⟨o.result, o.error, o.writes, m⟩

/-- Go `Engine.ExecuteAction`: the namespace-enabled gate, the cooldown gate,
then dispatch on the action name, recording a cooldown entry after a
successful (error-free) action.  This is the complete gate sequence of the
source: no rate-limiter and no circuit-breaker consultation occurs on any
path. -/
def executeAction (cfg : RemediationConfig) (c : Cluster) (m : Cooldowns)
    (now : Int) (action : String) (resource : Resource) (ns : String) :
    ExecOutcome :=
  let nsConfig := getNamespaceConfig cfg ns
  if ¬ nsConfig.enabled then
    ⟨⟨action, false, "Remediation is disabled for this namespace", "", ""⟩,
     none, [], m⟩
  else
    let key := cooldownKey ns (getResourceName resource) action
    if isInCooldown m key nsConfig.cooldownSeconds now then
      ⟨⟨action, false, "Action skipped due to cooldown period",
        getResourceName resource, ns⟩, none, [], m⟩
    else if action = "restart-pod" then
      withCooldown key now m (restartPod cfg c resource)
    else if action = "rollback-deployment" then
      withCooldown key now m (rollbackDeployment cfg c resource ns)
    else if action = "scale-replicas" then
      withCooldown key now m (scaleReplicas cfg c resource ns)
    else
      ⟨⟨action, false, "Unknown action: " ++ action, "", ""⟩,
       some ("unknown action: " ++ action), [], m⟩

/-! ## Detection engine (pkg/detection/rules.go)

Only the pieces the claims touch are embedded.  The Go CPU/memory thresholds
are `float64`; they are modelled as `Int` here — no modelled path performs
fractional arithmetic on them. -/

/-- Go `CrashLoopConfig`. -/
structure CrashLoopConfig where
  restartLimit : Int
  checkDuration : Int
  enabled : Bool
deriving DecidableEq, Repr

/-- Go `DeploymentConfig` (deployment detection settings). -/
structure DeploymentDetectionConfig where
  failureThreshold : Int
  checkDuration : Int
  enabled : Bool
deriving DecidableEq, Repr

/-- Go `CPUConfig`. -/
structure CPUDetectionConfig where
  thresholdPercent : Int
  checkDuration : Int
  enabled : Bool
deriving DecidableEq, Repr

/-- Go `MemoryConfig`. -/
structure MemoryDetectionConfig where
  thresholdPercent : Int
  checkDuration : Int
  oomKillThreshold : Int
  enabled : Bool
deriving DecidableEq, Repr

/-- Go `NamespaceConfig` (detection). -/
structure NamespaceDetectionConfig where
  crashLoop : CrashLoopConfig
  deployment : DeploymentDetectionConfig
  cpu : CPUDetectionConfig
  memory : MemoryDetectionConfig
deriving DecidableEq, Repr

/-- Go `DetectionConfig` (the fields `GetNamespaceConfig` reads). -/
structure DetectionConfig where
  crashLoopThreshold : Int
  failedDeploymentThreshold : Int
  cpuThresholdPercent : Int
  memoryThresholdPercent : Int
  oomKillThreshold : Int
  namespaces : List (String × NamespaceDetectionConfig)
deriving DecidableEq, Repr

/-- Go `Detector.GetNamespaceConfig`: the namespace entry verbatim, else
defaults with check durations 5m/10m/5m/5m (in nanoseconds) and
`enabled = true`. -/
def getDetectionNamespaceConfig (cfg : DetectionConfig) (ns : String) :
    NamespaceDetectionConfig :=
  match cfg.namespaces.lookup ns with
  | some c => c
  | none =>
    { crashLoop := ⟨cfg.crashLoopThreshold, 300000000000, true⟩
      deployment := ⟨cfg.failedDeploymentThreshold, 600000000000, true⟩
      cpu := ⟨cfg.cpuThresholdPercent, 300000000000, true⟩
      memory := ⟨cfg.memoryThresholdPercent, 300000000000, cfg.oomKillThreshold, true⟩ }

/-- The fields of a built-in Go `Rule` that flow into emitted issues. -/
structure DetectionRule where
  name : String
  severity : String
  actions : List String
deriving DecidableEq, Repr

/-- The built-in `failed-deployment` rule. -/
def failedDeploymentRule : DetectionRule :=
  ⟨"failed-deployment", "high", ["rollback-deployment"]⟩

/-- Go `Issue` (the fields the claims mention; `resource`/`detectedAt`
omitted). -/
structure Issue where
  ruleName : String
  severity : String
  ns : String
  name : String
  kind : String
  actions : List String
deriving DecidableEq, Repr

/-- Go `Detector.meetsDurationCondition`: `false` whenever `terminated` or
`duration` is nil, else `time.Since(terminated.FinishedAt) ≥ duration`. -/
def meetsDurationCondition (terminated : Option ContainerStateTerminated)
    (duration : Option Int) (now : Int) : Bool :=
  match terminated, duration with
  | some tm, some d => decide (d ≤ now - tm.finishedAt)
  | _, _ => false

/-- The inner loop of Go `detectFailedDeployment` over
`deployment.Status.Conditions`; note the source passes `nil` as the
`terminated` argument of `meetsDurationCondition`. -/
def failedDeploymentConds (checkDuration : Int) (rule : DetectionRule)
    (now : Int) (d : Deployment) : List DeploymentCondition → List Issue
  | [] => []
  | cond :: rest =>
    (if cond.condType = "Progressing" ∧ cond.status = "False" ∧
        cond.reason = "ProgressDeadlineExceeded" then
       if meetsDurationCondition none (some checkDuration) now then
         [⟨rule.name, rule.severity, d.ns, d.name, "Deployment", rule.actions⟩]
       else []
     else []) ++ failedDeploymentConds checkDuration rule now d rest

/-- Go `Detector.detectFailedDeployment`: the loop over the listed
deployments, skipping namespaces with deployment detection disabled. -/
def detectFailedDeployment (cfg : DetectionConfig) (rule : DetectionRule)
    (now : Int) : List Deployment → List Issue
  | [] => []
  | d :: rest =>
    (if ¬ (getDetectionNamespaceConfig cfg d.ns).deployment.enabled then []
     else failedDeploymentConds (getDetectionNamespaceConfig cfg d.ns).deployment.checkDuration
       rule now d d.conditions) ++ detectFailedDeployment cfg rule now rest

theorem meetsDurationCondition_none (duration : Option Int) (now : Int) :
    meetsDurationCondition none duration now = false := rfl

theorem failedDeploymentConds_nil (checkDuration : Int) (rule : DetectionRule)
    (now : Int) (d : Deployment) :
    ∀ conds, failedDeploymentConds checkDuration rule now d conds = [] := by
  intro conds
  induction conds with
  | nil => rfl
  | cons cond rest ih =>
    simp [failedDeploymentConds, meetsDurationCondition_none, ih]

/-- C2: the failed-deployment rule can never emit an issue: the source invokes
`meetsDurationCondition(nil, duration)` for deployments, and a nil
`terminated` makes that check return `false` unconditionally, so the emit
branch is unreachable for every deployment, condition, and configuration. -/
theorem detectFailedDeployment_never_emits (cfg : DetectionConfig)
    (rule : DetectionRule) (now : Int) (deployments : List Deployment) :
    detectFailedDeployment cfg rule now deployments = [] := by
  induction deployments with
  | nil => rfl
  | cons d rest ih =>
    simp [detectFailedDeployment, failedDeploymentConds_nil, ih]

/-! ## Concrete inputs shared by several claims -/

/-- A remediation configuration with everything enabled and no namespace
override. -/
def demoConfig : RemediationConfig :=
  { enabled := true, maxRetries := 3, retryInterval := 30000000000,
    dryRun := false, autoRollbackEnabled := true, autoScaleEnabled := true,
    cooldownSeconds := 300, namespaces := [] }

def demoPod : Pod := ⟨"p1", "default", []⟩

def demoCluster : Cluster := ⟨[demoPod], [], []⟩

/-- C1: evaluating `ExecuteAction` at a concrete admissible input shows the
mutation is issued and reported successful.  The embedding of `ExecuteAction`
(definition `executeAction` above, read off the source line by line) contains
no rate-limiter consultation and no circuit-breaker wrap: `NewEngine`
constructs both, but no `Allow` call and no breaker `Execute` call occurs
anywhere in `ExecuteAction` or the action helpers, so the pod delete below is
issued without any admission gate beyond namespace-enabled and cooldown. -/
theorem executeAction_mutates_without_admission_gates :
    (executeAction demoConfig demoCluster [] 0 "restart-pod"
      (.pod demoPod) "default").writes = [WriteOp.deletePod "default" "p1"] ∧
    (executeAction demoConfig demoCluster [] 0 "restart-pod"
      (.pod demoPod) "default").result.success = true := by decide

/-- C10: a rollback invocation with auto-rollback enabled and dry-run off,
whose fetched deployment has no `deployment.kubernetes.io/revision` annotation
(or an empty one), treats the current revision as "1" and returns a
non-success `Result` with message "No previous revision found for rollback"
together with a non-nil error, issuing no patch. -/
theorem rollback_missing_revision (cfg : RemediationConfig) (c : Cluster)
    (d cur : Deployment) (ns : String)
    (hauto : (getNamespaceConfig cfg ns).autoRollbackEnabled = true)
    (hdry : cfg.dryRun = false)
    (hget : getDeployment c d.ns d.name = some cur)
    (hann : List.lookup "deployment.kubernetes.io/revision" cur.annotations = none ∨
            List.lookup "deployment.kubernetes.io/revision" cur.annotations = some "") :
    revisionOf cur = "1" ∧
    (rollbackDeployment cfg c (.deployment d) ns).result.success = false ∧
    (rollbackDeployment cfg c (.deployment d) ns).result.message =
      "No previous revision found for rollback" ∧
    (rollbackDeployment cfg c (.deployment d) ns).error =
      some "no previous revision found" ∧
    (rollbackDeployment cfg c (.deployment d) ns).writes = [] := by
  have hrev : revisionOf cur = "1" := by
    rcases hann with h | h <;> simp [revisionOf, h]
  refine ⟨hrev, ?_, ?_, ?_, ?_⟩ <;>
    simp [rollbackDeployment, hauto, hdry, hget, hrev]

/-- A deployment whose revision annotation is absent. -/
def noRevDeployment : Deployment := ⟨"d2", "default", [], some 3, []⟩

def rollbackCluster : Cluster := ⟨[], [noRevDeployment], []⟩

theorem rollback_missing_revision_witness :
    (getNamespaceConfig demoConfig "default").autoRollbackEnabled = true ∧
    demoConfig.dryRun = false ∧
    getDeployment rollbackCluster "default" "d2" = some noRevDeployment ∧
    (revisionOf noRevDeployment = "1" ∧
     (rollbackDeployment demoConfig rollbackCluster
       (.deployment noRevDeployment) "default").result.success = false ∧
     (rollbackDeployment demoConfig rollbackCluster
       (.deployment noRevDeployment) "default").result.message =
       "No previous revision found for rollback" ∧
     (rollbackDeployment demoConfig rollbackCluster
       (.deployment noRevDeployment) "default").error =
       some "no previous revision found" ∧
     (rollbackDeployment demoConfig rollbackCluster
       (.deployment noRevDeployment) "default").writes = []) :=
  ⟨by decide, by decide, by decide,
   rollback_missing_revision demoConfig rollbackCluster noRevDeployment
     noRevDeployment "default" (by decide) (by decide) (by decide)
     (Or.inl (by decide))⟩

/-- C6: for `scale-replicas` on a Deployment with auto-scale enabled and
dry-run off, a fetched replica count `cval ≥ 10` yields a failed "at maximum"
`Result` with no patch, and `cval < 10` patches `spec.replicas` to
`min(cval + max(2, cval / 2), 10)` (Go's truncating integer division agrees
with Lean's on the non-negative `cval` required here). -/
theorem scaleReplicas_deployment_spec (cfg : RemediationConfig) (c : Cluster)
    (d cur : Deployment) (ns : String) (cval : Int)
    (hauto : (getNamespaceConfig cfg ns).autoScaleEnabled = true)
    (hdry : cfg.dryRun = false)
    (hget : getDeployment c d.ns d.name = some cur)
    (hrep : cur.replicas = some cval)
    (_hnonneg : 0 ≤ cval) :
    (10 ≤ cval →
       (scaleReplicas cfg c (.deployment d) ns).result.success = false ∧
       (scaleReplicas cfg c (.deployment d) ns).result.message =
         "Deployment already at maximum replicas (10)" ∧
       (scaleReplicas cfg c (.deployment d) ns).writes = []) ∧
    (cval < 10 →
       (scaleReplicas cfg c (.deployment d) ns).result.success = true ∧
       (scaleReplicas cfg c (.deployment d) ns).writes =
         [WriteOp.patchReplicas d.ns d.name (min (cval + max 2 (cval / 2)) 10)]) := by
  have hmax2 : (if cval / 2 < 2 then 2 else cval / 2) = max 2 (cval / 2) := by
    rcases lt_or_le (cval / 2) 2 with h | h
    · rw [if_pos h, max_eq_left (le_of_lt h)]
    · rw [if_neg (not_lt.mpr h), max_eq_right h]
  constructor
  · intro h10
    refine ⟨?_, ?_, ?_⟩ <;>
      simp [scaleReplicas, hauto, scaleDeployment, hget, hrep, h10]
  · intro h10
    have hn10 : ¬ (10 : Int) ≤ cval := not_le.mpr h10
    have hmin : (if 10 < cval + max 2 (cval / 2) then 10
        else cval + max 2 (cval / 2)) = min (cval + max 2 (cval / 2)) 10 := by
      rcases lt_or_le 10 (cval + max 2 (cval / 2)) with h | h
      · rw [if_pos h, min_eq_right (le_of_lt h)]
      · rw [if_neg (not_lt.mpr h), min_eq_left h]
    refine ⟨?_, ?_⟩ <;>
      simp [scaleReplicas, hauto, scaleDeployment, hget, hrep, hn10, hdry,
        hmax2, hmin]

/-- A deployment with 7 replicas. -/
def sevenDeployment : Deployment := ⟨"d7", "default", [], some 7, []⟩

def sevenCluster : Cluster := ⟨[], [sevenDeployment], []⟩

theorem scaleReplicas_deployment_spec_witness :
    (getNamespaceConfig demoConfig "default").autoScaleEnabled = true ∧
    demoConfig.dryRun = false ∧
    getDeployment sevenCluster "default" "d7" = some sevenDeployment ∧
    sevenDeployment.replicas = some 7 ∧ (0 : Int) ≤ 7 ∧ (7 : Int) < 10 ∧
    ((scaleReplicas demoConfig sevenCluster
       (.deployment sevenDeployment) "default").result.success = true ∧
     (scaleReplicas demoConfig sevenCluster
       (.deployment sevenDeployment) "default").writes =
       [WriteOp.patchReplicas "default" "d7" (min (7 + max 2 (7 / 2 : Int)) 10)]) :=
  ⟨by decide, by decide, by decide, by decide, by decide, by decide,
   (scaleReplicas_deployment_spec demoConfig sevenCluster sevenDeployment
     sevenDeployment "default" 7 (by decide) (by decide) (by decide)
     (by decide) (by decide)).2 (by decide)⟩

/-- The global configuration with the dry-run flag set. -/
def dryRunConfig : RemediationConfig := { demoConfig with dryRun := true }

/-- A deployment already at the maximum of 10 replicas. -/
def maxedDeployment : Deployment := ⟨"d1", "default", [], some 10, []⟩

def maxedCluster : Cluster := ⟨[], [maxedDeployment], []⟩

/-- C5 counterexample: with the global dry-run flag set, a `scale-replicas`
call on a deployment already at 10 replicas returns a NON-success `Result`
(the "at maximum" branch precedes the dry-run branch), and no cooldown entry
is recorded — so dry-run does not always return a success `Result`.  (No
write is issued, as the claim also says.) -/
theorem dryRun_scale_at_max_not_success :
    dryRunConfig.dryRun = true ∧
    (executeAction dryRunConfig maxedCluster [] 0 "scale-replicas"
      (.deployment maxedDeployment) "default").result.success = false ∧
    (executeAction dryRunConfig maxedCluster [] 0 "scale-replicas"
      (.deployment maxedDeployment) "default").writes = [] ∧
    (executeAction dryRunConfig maxedCluster [] 0 "scale-replicas"
      (.deployment maxedDeployment) "default").cooldowns = [] := by decide

/-! ## Helper lemmas about the action helpers and `executeAction`

These are shared infrastructure for the cooldown and dry-run claims. -/

theorem restartPod_success_error_none (cfg : RemediationConfig) (c : Cluster)
    (r : Resource) :
    (restartPod cfg c r).result.success = true → (restartPod cfg c r).error = none := by
  cases r <;> simp only [restartPod] <;> (repeat' split) <;> simp

theorem rollbackDeployment_success_error_none (cfg : RemediationConfig)
    (c : Cluster) (r : Resource) (ns : String) :
    (rollbackDeployment cfg c r ns).result.success = true →
      (rollbackDeployment cfg c r ns).error = none := by
  cases r <;> simp only [rollbackDeployment] <;> (repeat' split) <;> simp

theorem scaleDeployment_success_error_none (cfg : RemediationConfig)
    (c : Cluster) (d : Deployment) :
    (scaleDeployment cfg c d).result.success = true →
      (scaleDeployment cfg c d).error = none := by
  simp only [scaleDeployment]
  (repeat' split) <;> simp

theorem scalePodFromOwners_success_error_none (cfg : RemediationConfig)
    (c : Cluster) (p : Pod) :
    ∀ refs, (scalePodFromOwners cfg c p refs).result.success = true →
      (scalePodFromOwners cfg c p refs).error = none
  | [] => by simp [scalePodFromOwners]
  | ref :: rest => by
    simp only [scalePodFromOwners]
    split
    · split
      · simp
      · split
        · split
          · simp
          · exact scaleDeployment_success_error_none cfg c _
        · exact scalePodFromOwners_success_error_none cfg c p rest
    · exact scalePodFromOwners_success_error_none cfg c p rest

theorem scaleReplicas_success_error_none (cfg : RemediationConfig) (c : Cluster)
    (r : Resource) (ns : String) :
    (scaleReplicas cfg c r ns).result.success = true →
      (scaleReplicas cfg c r ns).error = none := by
  simp only [scaleReplicas]
  split
  · simp
  · cases r
    · simp
    · exact scalePodFromOwners_success_error_none cfg c _ _
    · exact scaleDeployment_success_error_none cfg c _
    · simp

theorem withCooldown_result (key : String) (now : Int) (m : Cooldowns)
    (o : ActionOutcome) : (withCooldown key now m o).result = o.result := by
  simp only [withCooldown]
  split <;> rfl

theorem withCooldown_writes (key : String) (now : Int) (m : Cooldowns)
    (o : ActionOutcome) : (withCooldown key now m o).writes = o.writes := by
  simp only [withCooldown]
  split <;> rfl

theorem withCooldown_success (key : String) (now : Int) (m : Cooldowns)
    (o : ActionOutcome) (hs : o.result.success = true) (he : o.error = none) :
    (withCooldown key now m o).cooldowns = recordCooldown key now m := by
  simp [withCooldown, hs, he]

theorem withCooldown_not_success (key : String) (now : Int) (m : Cooldowns)
    (o : ActionOutcome) (hs : o.result.success = false) :
    (withCooldown key now m o).cooldowns = m := by
  simp [withCooldown, hs]

theorem withCooldown_cooldowns_cases (key : String) (now : Int) (m : Cooldowns)
    (o : ActionOutcome) :
    (withCooldown key now m o).cooldowns = m ∨
    (withCooldown key now m o).cooldowns = recordCooldown key now m := by
  simp only [withCooldown]
  split
  · exact Or.inr rfl
  · exact Or.inl rfl

/-- A successful `ExecuteAction` call records a cooldown entry at the call
time and can only have passed a failing cooldown check. -/
theorem executeAction_success_records (cfg : RemediationConfig) (c : Cluster)
    (m : Cooldowns) (now : Int) (a : String) (r : Resource) (ns : String)
    (h : (executeAction cfg c m now a r ns).result.success = true) :
    (executeAction cfg c m now a r ns).cooldowns =
      recordCooldown (cooldownKey ns (getResourceName r) a) now m ∧
    isInCooldown m (cooldownKey ns (getResourceName r) a)
      (getNamespaceConfig cfg ns).cooldownSeconds now = false := by
  by_cases hen : (getNamespaceConfig cfg ns).enabled = true
  · by_cases hcd : isInCooldown m (cooldownKey ns (getResourceName r) a)
        (getNamespaceConfig cfg ns).cooldownSeconds now = true
    · simp [executeAction, hen, hcd] at h
    · refine ⟨?_, by simpa using hcd⟩
      by_cases h1 : a = "restart-pod"
      · subst h1
        simp only [executeAction] at h ⊢
        simp [hen, hcd] at h ⊢
        simp only [withCooldown_result] at h
        exact withCooldown_success _ _ _ _ h
          (restartPod_success_error_none cfg c r h)
      · by_cases h2 : a = "rollback-deployment"
        · subst h2
          simp only [executeAction] at h ⊢
          simp [hen, hcd] at h ⊢
          simp only [withCooldown_result] at h
          exact withCooldown_success _ _ _ _ h
            (rollbackDeployment_success_error_none cfg c r ns h)
        · by_cases h3 : a = "scale-replicas"
          · subst h3
            simp only [executeAction] at h ⊢
            simp [hen, hcd] at h ⊢
            simp only [withCooldown_result] at h
            exact withCooldown_success _ _ _ _ h
              (scaleReplicas_success_error_none cfg c r ns h)
          · simp [executeAction, hen, hcd, h1, h2, h3] at h
  · simp [executeAction, hen] at h

/-- A non-success `ExecuteAction` call leaves the cooldown table unchanged. -/
theorem executeAction_not_success_keeps (cfg : RemediationConfig) (c : Cluster)
    (m : Cooldowns) (now : Int) (a : String) (r : Resource) (ns : String)
    (h : (executeAction cfg c m now a r ns).result.success = false) :
    (executeAction cfg c m now a r ns).cooldowns = m := by
  by_cases hen : (getNamespaceConfig cfg ns).enabled = true
  · by_cases hcd : isInCooldown m (cooldownKey ns (getResourceName r) a)
        (getNamespaceConfig cfg ns).cooldownSeconds now = true
    · simp [executeAction, hen, hcd]
    · by_cases h1 : a = "restart-pod"
      · subst h1
        simp only [executeAction] at h ⊢
        simp [hen, hcd] at h ⊢
        simp only [withCooldown_result] at h
        exact withCooldown_not_success _ _ _ _ h
      · by_cases h2 : a = "rollback-deployment"
        · subst h2
          simp only [executeAction] at h ⊢
          simp [hen, hcd] at h ⊢
          simp only [withCooldown_result] at h
          exact withCooldown_not_success _ _ _ _ h
        · by_cases h3 : a = "scale-replicas"
          · subst h3
            simp only [executeAction] at h ⊢
            simp [hen, hcd] at h ⊢
            simp only [withCooldown_result] at h
            exact withCooldown_not_success _ _ _ _ h
          · simp [executeAction, hen, hcd, h1, h2, h3]
  · simp [executeAction, hen]

/-- `ExecuteAction` either keeps the cooldown table or records the call's own
key at the call time. -/
theorem executeAction_cooldowns_cases (cfg : RemediationConfig) (c : Cluster)
    (m : Cooldowns) (now : Int) (a : String) (r : Resource) (ns : String) :
    (executeAction cfg c m now a r ns).cooldowns = m ∨
    (executeAction cfg c m now a r ns).cooldowns =
      recordCooldown (cooldownKey ns (getResourceName r) a) now m := by
  rcases h : (executeAction cfg c m now a r ns).result.success with _ | _
  · exact Or.inl (executeAction_not_success_keeps cfg c m now a r ns h)
  · exact Or.inr (executeAction_success_records cfg c m now a r ns h).1

theorem withCooldown_error (key : String) (now : Int) (m : Cooldowns)
    (o : ActionOutcome) : (withCooldown key now m o).error = o.error := by
  simp only [withCooldown]
  split <;> rfl

/-- A successful `ExecuteAction` call carries no error value. -/
theorem executeAction_success_error_none (cfg : RemediationConfig) (c : Cluster)
    (m : Cooldowns) (now : Int) (a : String) (r : Resource) (ns : String)
    (h : (executeAction cfg c m now a r ns).result.success = true) :
    (executeAction cfg c m now a r ns).error = none := by
  by_cases hen : (getNamespaceConfig cfg ns).enabled = true
  · by_cases hcd : isInCooldown m (cooldownKey ns (getResourceName r) a)
        (getNamespaceConfig cfg ns).cooldownSeconds now = true
    · simp [executeAction, hen, hcd] at h
    · by_cases h1 : a = "restart-pod"
      · subst h1
        simp only [executeAction] at h ⊢
        simp [hen, hcd] at h ⊢
        simp only [withCooldown_result] at h
        simp only [withCooldown_error]
        exact restartPod_success_error_none cfg c r h
      · by_cases h2 : a = "rollback-deployment"
        · subst h2
          simp only [executeAction] at h ⊢
          simp [hen, hcd] at h ⊢
          simp only [withCooldown_result] at h
          simp only [withCooldown_error]
          exact rollbackDeployment_success_error_none cfg c r ns h
        · by_cases h3 : a = "scale-replicas"
          · subst h3
            simp only [executeAction] at h ⊢
            simp [hen, hcd] at h ⊢
            simp only [withCooldown_result] at h
            simp only [withCooldown_error]
            exact scaleReplicas_success_error_none cfg c r ns h
          · simp [executeAction, hen, hcd, h1, h2, h3] at h
  · simp [executeAction, hen] at h

/-! ### Cooldown traces for C4 -/

/-- One `ExecuteAction` call's effect on the cooldown table, the call given as
a (time, cluster) pair with the action, resource, and namespace fixed. -/
def execStep (cfg : RemediationConfig) (a : String) (r : Resource) (ns : String)
    (m : Cooldowns) (tc : Int × Cluster) : Cooldowns :=
  (executeAction cfg tc.2 m tc.1 a r ns).cooldowns

/-- Folds the cooldown table through a sequence of `ExecuteAction` calls. -/
def foldCooldowns (cfg : RemediationConfig) (a : String) (r : Resource)
    (ns : String) (l : List (Int × Cluster)) (m : Cooldowns) : Cooldowns :=
  l.foldl (execStep cfg a r ns) m

theorem lookup_recordCooldown (key : String) (t : Int) (m : Cooldowns) :
    List.lookup key (recordCooldown key t m) = some t := by
  simp [recordCooldown, List.lookup]

/-- Folding further calls never moves the recorded timestamp of the trace's
key backwards (calls record at their own, later, times or not at all). -/
theorem foldCooldowns_lookup_mono (cfg : RemediationConfig) (a : String)
    (r : Resource) (ns : String) :
    ∀ (l : List (Int × Cluster)) (m : Cooldowns) (tl : Int),
      List.lookup (cooldownKey ns (getResourceName r) a) m = some tl →
      (∀ x ∈ l, tl ≤ x.1) →
      l.Pairwise (fun x y => x.1 ≤ y.1) →
      ∃ tl', List.lookup (cooldownKey ns (getResourceName r) a)
          (foldCooldowns cfg a r ns l m) = some tl' ∧ tl ≤ tl'
  | [], _, tl, hl, _, _ => ⟨tl, hl, le_refl tl⟩
  | x :: l, m, tl, hl, hmem, hsort => by
    have hfold : foldCooldowns cfg a r ns (x :: l) m =
        foldCooldowns cfg a r ns l (execStep cfg a r ns m x) := rfl
    have htl_x : tl ≤ x.1 := hmem x (List.mem_cons_self x l)
    have htail := (List.pairwise_cons.mp hsort).2
    have hheads := (List.pairwise_cons.mp hsort).1
    rcases executeAction_cooldowns_cases cfg x.2 m x.1 a r ns with h | h
    · have hl' : List.lookup (cooldownKey ns (getResourceName r) a)
          (execStep cfg a r ns m x) = some tl := by
        show List.lookup _ (executeAction cfg x.2 m x.1 a r ns).cooldowns = _
        rw [h, hl]
      have hmem' : ∀ y ∈ l, tl ≤ y.1 := fun y hy => hmem y (List.mem_cons_of_mem x hy)
      rcases foldCooldowns_lookup_mono cfg a r ns l (execStep cfg a r ns m x) tl
          hl' hmem' htail with ⟨tl', hlk, hle⟩
      exact ⟨tl', by rw [hfold]; exact hlk, hle⟩
    · have hl' : List.lookup (cooldownKey ns (getResourceName r) a)
          (execStep cfg a r ns m x) = some x.1 := by
        show List.lookup _ (executeAction cfg x.2 m x.1 a r ns).cooldowns = _
        rw [h]
        exact lookup_recordCooldown _ _ _
      have hmem' : ∀ y ∈ l, x.1 ≤ y.1 := hheads
      rcases foldCooldowns_lookup_mono cfg a r ns l (execStep cfg a r ns m x) x.1
          hl' hmem' htail with ⟨tl', hlk, hle⟩
      exact ⟨tl', by rw [hfold]; exact hlk, le_trans htl_x hle⟩

/-- C4: fix an action, resource and namespace whose resolved policy has
`cooldownSeconds > 0`.  In any time-ordered sequence of `ExecuteAction` calls
starting from a fresh engine, any two calls that both return a success
`Result` are at least `cooldownSeconds` apart (in nanoseconds; equality
exactly at cooldown expiry is admitted by the strict `<` in `isInCooldown`).
Moreover every successful call records a cooldown entry at its call time, and
a non-success or erroring call never records one. -/
theorem cooldown_interval_invariant (cfg : RemediationConfig) (a : String)
    (r : Resource) (ns : String) (c1 c2 : Cluster) (t1 t2 : Int)
    (l1 l2 l3 : List (Int × Cluster))
    (hcd : 0 < (getNamespaceConfig cfg ns).cooldownSeconds)
    (hsorted : (l1 ++ (t1, c1) :: l2 ++ (t2, c2) :: l3).Pairwise
      (fun x y => x.1 ≤ y.1))
    (h1 : (executeAction cfg c1 (foldCooldowns cfg a r ns l1 []) t1 a r
      ns).result.success = true)
    (h2 : (executeAction cfg c2
      (foldCooldowns cfg a r ns (l1 ++ (t1, c1) :: l2) []) t2 a r
      ns).result.success = true) :
    (getNamespaceConfig cfg ns).cooldownSeconds * 1000000000 ≤ t2 - t1 ∧
    (∀ (c : Cluster) (m : Cooldowns) (t : Int),
      ((executeAction cfg c m t a r ns).result.success = true →
        (executeAction cfg c m t a r ns).cooldowns =
          recordCooldown (cooldownKey ns (getResourceName r) a) t m) ∧
      ((executeAction cfg c m t a r ns).result.success = false →
        (executeAction cfg c m t a r ns).cooldowns = m) ∧
      ((executeAction cfg c m t a r ns).error ≠ none →
        (executeAction cfg c m t a r ns).cooldowns = m)) := by
  constructor
  · have hA : (l1 ++ (t1, c1) :: l2).Pairwise (fun x y => x.1 ≤ y.1) :=
      (List.pairwise_append.mp hsorted).1
    have hC : ((t1, c1) :: l2).Pairwise (fun x y => x.1 ≤ y.1) :=
      (List.pairwise_append.mp hA).2.1
    have hl2sorted : l2.Pairwise (fun x y => x.1 ≤ y.1) :=
      (List.pairwise_cons.mp hC).2
    have hl2mem : ∀ x ∈ l2, t1 ≤ x.1 := (List.pairwise_cons.mp hC).1
    have hsplit : foldCooldowns cfg a r ns (l1 ++ (t1, c1) :: l2) [] =
        foldCooldowns cfg a r ns l2
          (execStep cfg a r ns (foldCooldowns cfg a r ns l1 []) (t1, c1)) := by
      simp [foldCooldowns, List.foldl_append]
    have hrec : execStep cfg a r ns (foldCooldowns cfg a r ns l1 []) (t1, c1) =
        recordCooldown (cooldownKey ns (getResourceName r) a) t1
          (foldCooldowns cfg a r ns l1 []) :=
      (executeAction_success_records cfg c1 (foldCooldowns cfg a r ns l1 [])
        t1 a r ns h1).1
    have hl0 : List.lookup (cooldownKey ns (getResourceName r) a)
        (execStep cfg a r ns (foldCooldowns cfg a r ns l1 []) (t1, c1)) =
        some t1 := by
      rw [hrec]
      exact lookup_recordCooldown _ _ _
    rcases foldCooldowns_lookup_mono cfg a r ns l2
        (execStep cfg a r ns (foldCooldowns cfg a r ns l1 []) (t1, c1)) t1
        hl0 hl2mem hl2sorted with ⟨tl', hlk, ht1tl⟩
    have hnotin := (executeAction_success_records cfg c2
      (foldCooldowns cfg a r ns (l1 ++ (t1, c1) :: l2) []) t2 a r ns h2).2
    have hncds : ¬ (getNamespaceConfig cfg ns).cooldownSeconds ≤ 0 := not_le.mpr hcd
    rw [hsplit] at hnotin
    simp only [isInCooldown, if_neg hncds, hlk] at hnotin
    have hfar := of_decide_eq_false hnotin
    omega
  · intro c m t
    refine ⟨fun hs => (executeAction_success_records cfg c m t a r ns hs).1,
      fun hs => executeAction_not_success_keeps cfg c m t a r ns hs,
      fun he => ?_⟩
    rcases hsucc : (executeAction cfg c m t a r ns).result.success with _ | _
    · exact executeAction_not_success_keeps cfg c m t a r ns hsucc
    · exact absurd (executeAction_success_error_none cfg c m t a r ns hsucc) he

theorem cooldown_interval_invariant_witness :
    0 < (getNamespaceConfig dryRunConfig "default").cooldownSeconds ∧
    (executeAction dryRunConfig demoCluster
      (foldCooldowns dryRunConfig "restart-pod" (.pod demoPod) "default" [] [])
      0 "restart-pod" (.pod demoPod) "default").result.success = true ∧
    (executeAction dryRunConfig demoCluster
      (foldCooldowns dryRunConfig "restart-pod" (.pod demoPod) "default"
        ([] ++ (0, demoCluster) :: []) []) 300000000000
      "restart-pod" (.pod demoPod) "default").result.success = true ∧
    (getNamespaceConfig dryRunConfig "default").cooldownSeconds * 1000000000 ≤
      300000000000 - 0 :=
  ⟨by decide, by decide, by decide,
   (cooldown_interval_invariant dryRunConfig "restart-pod" (.pod demoPod)
     "default" demoCluster demoCluster 0 300000000000 [] [] []
     (by decide) (by decide) (by decide) (by decide)).1⟩

/-! ### Dry-run write behaviour for C5 -/

theorem restartPod_dryRun_writes (cfg : RemediationConfig) (c : Cluster)
    (r : Resource) (h : cfg.dryRun = true) : (restartPod cfg c r).writes = [] := by
  cases r <;> simp [restartPod, h]

theorem rollbackDeployment_dryRun_writes (cfg : RemediationConfig) (c : Cluster)
    (r : Resource) (ns : String) (h : cfg.dryRun = true) :
    (rollbackDeployment cfg c r ns).writes = [] := by
  cases r <;> simp [rollbackDeployment, h, apply_ite]

theorem scaleDeployment_dryRun_writes (cfg : RemediationConfig) (c : Cluster)
    (d : Deployment) (h : cfg.dryRun = true) :
    (scaleDeployment cfg c d).writes = [] := by
  cases hg : getDeployment c d.ns d.name <;>
    simp [scaleDeployment, hg, h, apply_ite]

theorem scalePodFromOwners_dryRun_writes (cfg : RemediationConfig) (c : Cluster)
    (p : Pod) (h : cfg.dryRun = true) :
    ∀ refs, (scalePodFromOwners cfg c p refs).writes = []
  | [] => by simp [scalePodFromOwners]
  | ref :: rest => by
    simp only [scalePodFromOwners]
    split
    · split
      · rfl
      · split
        · split
          · rfl
          · exact scaleDeployment_dryRun_writes cfg c _ h
        · exact scalePodFromOwners_dryRun_writes cfg c p h rest
    · exact scalePodFromOwners_dryRun_writes cfg c p h rest

theorem scaleReplicas_dryRun_writes (cfg : RemediationConfig) (c : Cluster)
    (r : Resource) (ns : String) (h : cfg.dryRun = true) :
    (scaleReplicas cfg c r ns).writes = [] := by
  simp only [scaleReplicas]
  split
  · rfl
  · cases r
    · rfl
    · exact scalePodFromOwners_dryRun_writes cfg c _ h _
    · exact scaleDeployment_dryRun_writes cfg c _ h
    · rfl

/-- With the global dry-run flag set, no `ExecuteAction` path issues a write
operation. -/
theorem executeAction_dryRun_no_writes (cfg : RemediationConfig)
    (hdry : cfg.dryRun = true) (c : Cluster) (m : Cooldowns) (now : Int)
    (a : String) (r : Resource) (ns : String) :
    (executeAction cfg c m now a r ns).writes = [] := by
  by_cases hen : (getNamespaceConfig cfg ns).enabled = true
  · by_cases hcd : isInCooldown m (cooldownKey ns (getResourceName r) a)
        (getNamespaceConfig cfg ns).cooldownSeconds now = true
    · simp [executeAction, hen, hcd]
    · by_cases h1 : a = "restart-pod"
      · subst h1
        simp only [executeAction]
        simp [hen, hcd, withCooldown_writes,
          restartPod_dryRun_writes cfg c r hdry]
      · by_cases h2 : a = "rollback-deployment"
        · subst h2
          simp only [executeAction]
          simp [hen, hcd, withCooldown_writes,
            rollbackDeployment_dryRun_writes cfg c r ns hdry]
        · by_cases h3 : a = "scale-replicas"
          · subst h3
            simp only [executeAction]
            simp [hen, hcd, withCooldown_writes,
              scaleReplicas_dryRun_writes cfg c r ns hdry]
          · simp [executeAction, hen, hcd, h1, h2, h3]
  · simp [executeAction, hen]

/-- C5 (amended): with the global dry-run flag set, `ExecuteAction` issues no
write operation on any path and for any action; every call that does return a
success `Result` (in particular the per-action dry-run branches) still records
a cooldown entry; and a `restart-pod` dry-run call on a valid pod that passes
the namespace-enabled and cooldown gates does return a success `Result`.
(Gate failures — auto-rollback/auto-scale off, scaling already at maximum —
return non-success even under dry-run; see the counterexample.) -/
theorem dryRun_no_writes_and_success_records (cfg : RemediationConfig)
    (c : Cluster) (m : Cooldowns) (now : Int) (a : String) (r : Resource)
    (ns : String) (hdry : cfg.dryRun = true) :
    (executeAction cfg c m now a r ns).writes = [] ∧
    ((executeAction cfg c m now a r ns).result.success = true →
      (executeAction cfg c m now a r ns).cooldowns =
        recordCooldown (cooldownKey ns (getResourceName r) a) now m) ∧
    (∀ p : Pod, (getNamespaceConfig cfg ns).enabled = true →
      isInCooldown m (cooldownKey ns p.name "restart-pod")
        (getNamespaceConfig cfg ns).cooldownSeconds now = false →
      (executeAction cfg c m now "restart-pod" (.pod p) ns).result.success =
        true) := by
  refine ⟨executeAction_dryRun_no_writes cfg hdry c m now a r ns,
    fun hs => (executeAction_success_records cfg c m now a r ns hs).1,
    fun p hen hcd => ?_⟩
  simp only [executeAction]
  simp [hen, getResourceName, hcd, withCooldown_result, restartPod, hdry]

theorem dryRun_no_writes_and_success_records_witness :
    dryRunConfig.dryRun = true ∧
    ((executeAction dryRunConfig demoCluster [] 0 "restart-pod" (.pod demoPod)
        "default").writes = [] ∧
     ((executeAction dryRunConfig demoCluster [] 0 "restart-pod" (.pod demoPod)
        "default").result.success = true →
       (executeAction dryRunConfig demoCluster [] 0 "restart-pod" (.pod demoPod)
          "default").cooldowns =
         recordCooldown (cooldownKey "default" (getResourceName (.pod demoPod))
           "restart-pod") 0 []) ∧
     (∀ p : Pod, (getNamespaceConfig dryRunConfig "default").enabled = true →
       isInCooldown [] (cooldownKey "default" p.name "restart-pod")
         (getNamespaceConfig dryRunConfig "default").cooldownSeconds 0 = false →
       (executeAction dryRunConfig demoCluster [] 0 "restart-pod" (.pod p)
          "default").result.success = true)) :=
  ⟨by decide,
   dryRun_no_writes_and_success_records dryRunConfig demoCluster [] 0
     "restart-pod" (.pod demoPod) "default" (by decide)⟩

end KubeGuardian
